import Mathlib

/-!
Shallow embedding of the scoring and persistence logic of
`RPA_prosessanalyse-supabase.py` (RPA process-evaluation app), together with
theorems settling the specification claims about it.

Conventions of the embedding:
* Python `float` values are modelled as exact rationals (`ℚ`); all constants
  appearing in the program (0.4, 0.5, 1.141, …) are taken exactly.
* Python `int` values are modelled as `ℤ` (or `ℕ` where the UI widget
  enforces non-negativity with `min_value=0` / `min_value=1`).
* Python strings that undergo `split` / `strip` / `lower` / `in` are
  modelled as `List Char`; strings only compared for equality stay `String`.
* Python's built-in `round` rounds half to even (banker's rounding); it is
  modelled by `pyRound` below, and `round(x, n)` by `pyRoundTo n x`.
-/

/-- Python's built-in `round` on a real (here rational) number: nearest
integer, ties going to the even integer (banker's rounding). -/
def pyRound (q : ℚ) : ℤ :=
  if q - ⌊q⌋ < 1/2 then ⌊q⌋
  else if 1/2 < q - ⌊q⌋ then ⌊q⌋ + 1
  else if Even ⌊q⌋ then ⌊q⌋ else ⌊q⌋ + 1

/-- Python's `round(x, n)` to `n` decimal digits, on rationals. -/
def pyRoundTo (n : ℕ) (q : ℚ) : ℚ :=
  (pyRound (q * (10 : ℚ) ^ n) : ℚ) / (10 : ℚ) ^ n

/-! ### Python string operations on `List Char` -/

/-- Python `str.lower()` (the keywords involved are ASCII). -/
def toLowerL (s : List Char) : List Char := s.map Char.toLower

/-- Python `str.strip()`: drop whitespace from both ends. -/
def stripL (s : List Char) : List Char :=
  ((s.dropWhile Char.isWhitespace).reverse.dropWhile Char.isWhitespace).reverse

/-- Python `s.split(',')`: split on every comma, keeping empty segments;
the empty string yields one empty segment. -/
def splitComma : List Char → List (List Char)
  | [] => [[]]
  | c :: rest =>
    if c = ',' then [] :: splitComma rest
    else
      match splitComma rest with
      | [] => [[c]]
      | seg :: segs => (c :: seg) :: segs

/-- Does `hay` start with `needle`? -/
def startsWithL : List Char → List Char → Bool
  | [], _ => true
  | _ :: _, [] => false
  | a :: as, b :: bs => a = b && startsWithL (a :: as).tail (b :: bs).tail

/-- Python `needle in hay` (substring test). -/
def pyIn (needle : List Char) : List Char → Bool
  | [] => needle.isEmpty
  | c :: rest => startsWithL needle (c :: rest) || pyIn needle rest

/-- Number of non-empty trimmed comma-separated segments of `s`
(the list comprehension `len([x.strip() for x in s.split(',') if x.strip()])`
of the source). -/
def antallSegmenter (s : List Char) : ℕ :=
  (((splitComma s).map stripL).filter (fun x => !x.isEmpty)).length

/-! ### Embedded functions of `RPA_prosessanalyse-supabase.py` -/

/-- Embeds `to_int` (lines 82–86): `int(round(float(x)))` with fallback `0` on
any exception.  The fallible `float(x)` parse is modelled by an `Option ℚ`
argument: `some q` when `x` parses to the value `q`, `none` when unparseable.
The per-field coercion loop of `lagre_data_to_supabase` (lines 130–135) and of
`oppdater_data_in_supabase` (lines 176–181) applies this same expression
`int(round(float(x)))` with the same `except: 0` fallback. -/
def to_int (x : Option ℚ) : ℤ :=
  match x with
  | some q => pyRound q
  | none => 0

/-- Embeds `beregn_datakompleksitet_score` (lines 217–255): base 1, +1 per
data source beyond the first, +0.5 per file format beyond the first, +1 for
API access "ja" (case-insensitively), capped at 5, then `int(round(...))`. -/
def beregn_datakompleksitet_score (datakilder filformater api_tilgang : List Char) : ℤ :=
  let base_score : ℚ := 1
  let antall_datakilder : ℕ :=
    if datakilder ≠ [] ∧ stripL datakilder ≠ [] then antallSegmenter datakilder else 0
  let antall_filformater : ℕ :=
    if filformater ≠ [] ∧ stripL filformater ≠ [] then antallSegmenter filformater else 0
  let kompleksitet_bonus : ℚ :=
    (if antall_datakilder > 1 then ((antall_datakilder : ℚ) - 1) * 1 else 0) +
    (if antall_filformater > 1 then ((antall_filformater : ℚ) - 1) * 0.5 else 0) +
    (if api_tilgang ≠ [] ∧ toLowerL api_tilgang = ("ja").toList then 1.0 else 0)
  let final_score : ℚ := min 5 (base_score + kompleksitet_bonus)
  pyRound final_score

/-- Embeds `beregn_kvalitetsforbedring_score` (lines 258–294): a base tier
from processing time and monthly count, plus up to +3 bonus from the three
organisational-change enum fields, capped at 5, then `int(round(...))`. -/
def beregn_kvalitetsforbedring_score (behandlingstid antall_prosesser : ℕ)
    (brukeropplaering prosessendring motstand_forventet : String) : ℤ :=
  let base_score : ℤ :=
    if behandlingstid ≥ 60 ∧ antall_prosesser ≥ 100 then 5
    else if (behandlingstid ≥ 30 ∧ antall_prosesser ≥ 50) ∨ behandlingstid ≥ 90 then 4
    else if behandlingstid ≥ 15 ∨ antall_prosesser ≥ 20 then 3
    else if behandlingstid ≥ 5 ∨ antall_prosesser ≥ 10 then 2
    else 1
  let endring_bonus : ℤ :=
    (if brukeropplaering = ("Kort introduksjon") ∨ brukeropplaering = ("Strukturert opplæring") then 1 else 0) +
    (if prosessendring = ("Små justeringer") then 1 else 0) +
    (if motstand_forventet = ("Lav motstand") then 1 else 0)
  let final_score : ℤ := min 5 (base_score + endring_bonus)
  pyRound (final_score : ℚ)

/-- Embeds `beregn_realistisk_kostnadsbesparelse` (lines 296–313):
`int(round(max(0, hours*(rate*1.141) - license - maintenance)))`. -/
def beregn_realistisk_kostnadsbesparelse
    (arslig_tidsbesparing kostnad_per_time lisenskostnad_aarlig vedlikeholdskostnad_aar : ℕ) : ℤ :=
  let arbeidsgiveravgift : ℚ := 1.141
  let brutto_besparelse : ℚ := (arslig_tidsbesparing : ℚ) * ((kostnad_per_time : ℚ) * arbeidsgiveravgift)
  let netto_besparelse : ℚ := brutto_besparelse - lisenskostnad_aarlig - vedlikeholdskostnad_aar
  pyRound (max 0 netto_besparelse)

/-- Embeds the technical-complexity branch of `beregn_kvantitative_scores`
(lines 423–436): default 3 on an empty field, otherwise a first-match keyword
cascade over the lower-cased field. -/
def teknisk_score_calc (filformater : List Char) : ℤ :=
  if filformater ≠ [] then
    let f := toLowerL filformater
    if pyIn (("api").toList) f then 5
    else if pyIn (("xml").toList) f ∨ pyIn (("json").toList) f then 4
    else if pyIn (("pdf").toList) f ∨ pyIn (("word").toList) f ∨ pyIn (("docx").toList) f then 3
    else if pyIn (("excel").toList) f ∨ pyIn (("xlsx").toList) f ∨ pyIn (("csv").toList) f then 4
    else 2
  else 3

/-- Embeds the rule-stability branch of `beregn_kvantitative_scores`
(lines 444–452). -/
def regelstabilitet_score_calc (behandlingstid antall_prosesser : ℕ) : ℤ :=
  if behandlingstid ≥ 60 ∧ antall_prosesser ≥ 100 then 5
  else if behandlingstid ≥ 30 ∧ antall_prosesser ≥ 50 then 4
  else if behandlingstid ≥ 15 ∨ antall_prosesser ≥ 20 then 3
  else 2

/-- Result record of `beregn_kvantitative_scores` (the returned 6-tuple). -/
structure KvantScores where
  tidsbesparelse_score : ℤ
  volum_score : ℤ
  kvalitet_score : ℤ
  teknisk_score : ℤ
  datakompleksitet_score : ℤ
  regelstabilitet_score : ℤ

/-- Embeds `beregn_kvantitative_scores` (lines 387–454).  The arguments
`feilrate`, `personer_involvert` and `kostnad_per_time` are accepted but, as
in the source, unused. -/
def beregn_kvantitative_scores (behandlingstid antall_prosesser : ℕ) (feilrate : ℚ)
    (personer_involvert kostnad_per_time : ℕ)
    (filformater datakilder api_tilgang : List Char)
    (brukeropplaering prosessendring motstand_forventet : String) : KvantScores :=
  { tidsbesparelse_score :=
      if behandlingstid ≥ 120 then 5
      else if behandlingstid ≥ 60 then 4
      else if behandlingstid ≥ 30 then 3
      else if behandlingstid ≥ 10 then 2
      else 1
    volum_score :=
      if antall_prosesser ≥ 1000 then 5
      else if antall_prosesser ≥ 500 then 4
      else if antall_prosesser ≥ 200 then 3
      else if antall_prosesser ≥ 50 then 2
      else 1
    kvalitet_score := beregn_kvalitetsforbedring_score behandlingstid antall_prosesser
      brukeropplaering prosessendring motstand_forventet
    teknisk_score := teknisk_score_calc filformater
    datakompleksitet_score := beregn_datakompleksitet_score datakilder filformater api_tilgang
    regelstabilitet_score := regelstabilitet_score_calc behandlingstid antall_prosesser }

/-- Input dictionary of `beregn_prioritering` (the `temp_data` dict built at
lines 864–870): nine 1–5 scores, the two multiselect factor lists, and the
three quantitative fields driving the volume bonus. -/
structure PrioData where
  tidsbesparelse : ℤ
  volum : ℤ
  kvalitetsforbedring : ℤ
  teknisk_kompleksitet : ℤ
  datakompleksitet : ℤ
  regelstabilitet : ℤ
  org_pavirkning : ℤ
  brukerpavirkning : ℤ
  regelverksoverholdelse : ℤ
  risiko_faktorer : List String
  bonus_faktorer : List String
  antall_prosesser : ℤ
  behandlingstid : ℤ
  feilrate : ℚ

/-- Result dictionary of `beregn_prioritering`. -/
structure ScoreResult where
  gevinst_score : ℚ
  gjennomforbarhet_score : ℚ
  strategisk_score : ℚ
  total_score : ℚ
  justert_score : ℚ
  volum_bonus : ℚ

/-- Embeds `beregn_prioritering` (the second, overriding definition at
lines 456–497): three weighted pillars scaled to 10, their mean, the factor
and volume adjustments, a clamp to `[0, 10]`, and `round(_, 2)` on output. -/
def beregn_prioritering (data : PrioData) : ScoreResult :=
  let gevinst : ℚ :=
    ((data.tidsbesparelse : ℚ) * 0.4 + (data.volum : ℚ) * 0.4 + (data.kvalitetsforbedring : ℚ) * 0.2) * 2
  let gjennomforbarhet : ℚ :=
    ((data.teknisk_kompleksitet : ℚ) * 0.3 + (data.datakompleksitet : ℚ) * 0.4 + (data.regelstabilitet : ℚ) * 0.3) * 2
  let strategisk : ℚ :=
    ((data.org_pavirkning : ℚ) * 0.3 + (data.brukerpavirkning : ℚ) * 0.4 + (data.regelverksoverholdelse : ℚ) * 0.3) * 2
  let total : ℚ := (gevinst + gjennomforbarhet + strategisk) / 3
  let risiko_justering : ℚ := (data.risiko_faktorer.length : ℚ)
  let bonus_justering : ℚ := (data.bonus_faktorer.length : ℚ)
  let volum_bonus : ℚ :=
    (if data.antall_prosesser > 500 then 1.0 else if data.antall_prosesser > 200 then 0.5 else 0) +
    (if data.behandlingstid > 60 then 1.0 else if data.behandlingstid > 30 then 0.5 else 0) +
    (if data.feilrate > 15 then 1.0 else if data.feilrate > 5 then 0.5 else 0)
  let justert_total : ℚ := min 10 (max 0 (total + bonus_justering + volum_bonus - risiko_justering))
  { gevinst_score := pyRoundTo 2 gevinst
    gjennomforbarhet_score := pyRoundTo 2 gjennomforbarhet
    strategisk_score := pyRoundTo 2 strategisk
    total_score := pyRoundTo 2 total
    justert_score := pyRoundTo 2 justert_total
    volum_bonus := pyRoundTo 2 volum_bonus }

/-- Embeds `get_prioritet_kategori` (lines 499–508). -/
def get_prioritet_kategori (score : ℚ) : String :=
  if score ≥ 6.6 then "🔴 HØY PRIORITET"
  else if score ≥ 4.0 then "🟡 MEDIUM PRIORITET"
  else if score ≥ 1.0 then "🟢 LAV PRIORITET"
  else "⚪ IKKE AKTUELL"

/-- Result dictionary of `beregn_roi_metrics`. -/
structure RoiMetrics where
  roi_percentage : ℚ
  payback_months : ℚ
  npv : ℚ
  total_besparelser : ℚ
  total_kostnader : ℚ

/-- Embeds `beregn_roi_metrics` (lines 512–535).  Lifetime savings and costs,
a zero-guarded ROI percentage, a sentinel-guarded payback period, and an NPV
sum at a fixed 8% discount rate.  `estimert_implementeringstid` is accepted
but, as in the source, unused. -/
def beregn_roi_metrics (kostnadsbesparelse implementeringskostnad vedlikeholdskostnad_aar : ℤ)
    (estimert_implementeringstid : ℤ) (forventet_levetid_aar : ℕ) : RoiMetrics :=
  let total_besparelser : ℚ := (kostnadsbesparelse : ℚ) * (forventet_levetid_aar : ℚ)
  let total_kostnader : ℚ :=
    (implementeringskostnad : ℚ) + (vedlikeholdskostnad_aar : ℚ) * (forventet_levetid_aar : ℚ)
  let roi_percentage : ℚ :=
    if total_kostnader > 0 then ((total_besparelser - total_kostnader) / total_kostnader) * 100 else 0
  let monthly_net_savings : ℚ := (kostnadsbesparelse : ℚ) / 12 - (vedlikeholdskostnad_aar : ℚ) / 12
  let payback_months : ℚ :=
    if monthly_net_savings > 0 then (implementeringskostnad : ℚ) / monthly_net_savings else 999
  let discount_rate : ℚ := 0.08
  let npv : ℚ :=
    (Finset.Icc 1 forventet_levetid_aar).sum
      (fun year => ((kostnadsbesparelse : ℚ) - (vedlikeholdskostnad_aar : ℚ)) / ((1 + discount_rate) ^ year))
      - (implementeringskostnad : ℚ)
  { roi_percentage := pyRoundTo 1 roi_percentage
    payback_months := pyRoundTo 1 payback_months
    npv := pyRoundTo 0 npv
    total_besparelser := pyRoundTo 0 total_besparelser
    total_kostnader := pyRoundTo 0 total_kostnader }

/-- Required fields checked by the validation block of `lagre_prosess`
(lines 945–955).  The four text fields are `st.text_input`/`st.text_area`
values; the two counts come from `st.number_input(min_value=0, step int)`,
hence non-negative integers. -/
structure LagreFelter where
  prosessnavn : String
  prosesseier : String
  avdeling : String
  prosessbeskrivelse : String
  antall_prosesser : ℕ
  behandlingstid : ℕ

/-- Embeds the `mangler` list built at lines 946–952: each required field is
appended when Python finds it falsy (empty string for the text fields, zero
for the two integer fields). -/
def manglendeFelter (i : LagreFelter) : List String :=
  (if i.prosessnavn = ("") then ["Prosessnavn"] else []) ++
  (if i.prosesseier = ("") then ["Prosesseier"] else []) ++
  (if i.avdeling = ("") then ["Avdeling"] else []) ++
  (if i.prosessbeskrivelse = ("") then ["Beskrivelse"] else []) ++
  (if i.antall_prosesser = 0 then ["Antall per måned"] else []) ++
  (if i.behandlingstid = 0 then ["Behandlingstid"] else [])

/-- Embeds the validation gate of `lagre_prosess` (lines 953–955):
`Except.error msg` models showing the consolidated error message
`st.error(f"Følgende felt mangler: {', '.join(mangler)}")` and returning
without persisting; `Except.ok ()` models falling through to the persistence
code below the validation block. -/
def lagre_prosess_validering (i : LagreFelter) : Except String Unit :=
  if manglendeFelter i ≠ [] then
    Except.error (("Følgende felt mangler: ") ++ String.intercalate (", ") (manglendeFelter i))
  else Except.ok ()

/-! ## Theorems -/

theorem pyRound_intCast (n : ℤ) : pyRound (n : ℚ) = n := by
  simp [pyRound]

theorem le_pyRound {n : ℤ} {q : ℚ} (h : (n : ℚ) ≤ q) : n ≤ pyRound q := by
  have hf : n ≤ ⌊q⌋ := Int.le_floor.mpr h
  unfold pyRound
  split
  · exact hf
  · split
    · omega
    · split <;> omega

theorem pyRound_le {n : ℤ} {q : ℚ} (h : q ≤ (n : ℚ)) : pyRound q ≤ n := by
  have hf : ⌊q⌋ ≤ n := by
    have := Int.floor_le_floor h
    simpa using this
  unfold pyRound
  split
  · exact hf
  · rename_i h1
    have hlt : (⌊q⌋ : ℚ) < n := by
      have hr : (1 : ℚ)/2 ≤ q - ⌊q⌋ := le_of_not_lt h1
      have : (⌊q⌋ : ℚ) + 1/2 ≤ q := by linarith
      have : (⌊q⌋ : ℚ) < q := by linarith
      exact lt_of_lt_of_le this h
    have : ⌊q⌋ < n := by exact_mod_cast hlt
    split
    · omega
    · split <;> omega

theorem pyRound_sub_le_half (q : ℚ) : |(pyRound q : ℚ) - q| ≤ 1/2 := by
  have h0 : (⌊q⌋ : ℚ) ≤ q := Int.floor_le q
  have h1 : q < (⌊q⌋ : ℚ) + 1 := Int.lt_floor_add_one q
  rcases lt_trichotomy (q - ⌊q⌋) (1/2 : ℚ) with hr | hr | hr
  · have hpq : pyRound q = ⌊q⌋ := by unfold pyRound; rw [if_pos hr]
    rw [hpq, abs_sub_comm, abs_of_nonneg (by linarith)]
    linarith
  · have hpq : pyRound q = if Even ⌊q⌋ then ⌊q⌋ else ⌊q⌋ + 1 := by
      unfold pyRound; rw [if_neg (by linarith), if_neg (by linarith)]
    rw [hpq]
    split
    · rw [abs_sub_comm, abs_of_nonneg (by linarith)]; linarith
    · push_cast
      rw [abs_of_nonneg (by linarith)]; linarith
  · have hpq : pyRound q = ⌊q⌋ + 1 := by
      unfold pyRound; rw [if_neg (by linarith), if_pos hr]
    rw [hpq]
    push_cast
    rw [abs_of_nonneg (by linarith)]; linarith

theorem pyRound_tie_even (q : ℚ) (h : |(pyRound q : ℚ) - q| = 1/2) :
    Even (pyRound q) := by
  have h0 : (⌊q⌋ : ℚ) ≤ q := Int.floor_le q
  have h1 : q < (⌊q⌋ : ℚ) + 1 := Int.lt_floor_add_one q
  rcases lt_trichotomy (q - ⌊q⌋) (1/2 : ℚ) with hr | hr | hr
  · exfalso
    have hpq : pyRound q = ⌊q⌋ := by unfold pyRound; rw [if_pos hr]
    rw [hpq, abs_sub_comm, abs_of_nonneg (by linarith)] at h
    linarith
  · have hpq : pyRound q = if Even ⌊q⌋ then ⌊q⌋ else ⌊q⌋ + 1 := by
      unfold pyRound; rw [if_neg (by linarith), if_neg (by linarith)]
    rw [hpq]
    split
    · assumption
    · rename_i hodd
      rcases Int.even_or_odd ⌊q⌋ with he | ho
      · exact absurd he hodd
      · rcases ho with ⟨k, hk⟩
        exact ⟨k + 1, by omega⟩
  · exfalso
    have hpq : pyRound q = ⌊q⌋ + 1 := by
      unfold pyRound; rw [if_neg (by linarith), if_pos hr]
    rw [hpq] at h
    push_cast at h
    rw [abs_of_nonneg (by linarith)] at h
    linarith

theorem pyRound_min5_bonus_bounds {bonus : ℚ} (hb : 0 ≤ bonus) :
    1 ≤ pyRound (min 5 (1 + bonus)) ∧ pyRound (min 5 (1 + bonus)) ≤ 5 := by
  have h1 : (1 : ℚ) ≤ min 5 (1 + bonus) := le_min (by norm_num) (by linarith)
  have h5 : min 5 (1 + bonus) ≤ (5 : ℚ) := min_le_left _ _
  exact ⟨le_pyRound (by exact_mod_cast h1), pyRound_le (by exact_mod_cast h5)⟩

theorem kompleksitet_bonus_nonneg (n m : ℕ) (c : Prop) [Decidable c] :
    (0 : ℚ) ≤ (if n > 1 then ((n : ℚ) - 1) * 1 else 0) +
      (if m > 1 then ((m : ℚ) - 1) * 0.5 else 0) +
      (if c then 1.0 else 0) := by
  have hn : (0 : ℚ) ≤ (if n > 1 then ((n : ℚ) - 1) * 1 else 0) := by
    split_ifs with h
    · have : (1 : ℚ) ≤ (n : ℚ) := by exact_mod_cast h.le
      linarith
    · exact le_refl 0
  have hm : (0 : ℚ) ≤ (if m > 1 then ((m : ℚ) - 1) * 0.5 else 0) := by
    split_ifs with h
    · have : (1 : ℚ) ≤ (m : ℚ) := by exact_mod_cast h.le
      nlinarith
    · exact le_refl 0
  have hc : (0 : ℚ) ≤ (if c then (1.0 : ℚ) else 0) := by
    split_ifs <;> norm_num
  linarith

theorem beregn_datakompleksitet_score_bounds (d f a : List Char) :
    1 ≤ beregn_datakompleksitet_score d f a ∧ beregn_datakompleksitet_score d f a ≤ 5 := by
  simp only [beregn_datakompleksitet_score]
  exact pyRound_min5_bonus_bounds (kompleksitet_bonus_nonneg _ _ _)

theorem beregn_kvalitetsforbedring_score_bounds (bt ap : ℕ) (bo pe mo : String) :
    1 ≤ beregn_kvalitetsforbedring_score bt ap bo pe mo ∧
      beregn_kvalitetsforbedring_score bt ap bo pe mo ≤ 5 := by
  simp only [beregn_kvalitetsforbedring_score, pyRound_intCast]
  constructor
  · apply le_min (by norm_num)
    have h1 : (1 : ℤ) ≤
        (if bt ≥ 60 ∧ ap ≥ 100 then (5 : ℤ)
          else if (bt ≥ 30 ∧ ap ≥ 50) ∨ bt ≥ 90 then 4
          else if bt ≥ 15 ∨ ap ≥ 20 then 3
          else if bt ≥ 5 ∨ ap ≥ 10 then 2
          else 1) := by
      split_ifs <;> norm_num
    have h2 : (0 : ℤ) ≤
        (if bo = ("Kort introduksjon") ∨ bo = ("Strukturert opplæring") then (1 : ℤ) else 0) +
          (if pe = ("Små justeringer") then (1 : ℤ) else 0) +
          (if mo = ("Lav motstand") then (1 : ℤ) else 0) := by
      split_ifs <;> norm_num
    omega
  · exact min_le_left _ _

theorem teknisk_score_calc_mem (ff : List Char) :
    teknisk_score_calc ff = 2 ∨ teknisk_score_calc ff = 3 ∨
      teknisk_score_calc ff = 4 ∨ teknisk_score_calc ff = 5 := by
  simp only [teknisk_score_calc]
  split_ifs <;> norm_num

theorem regelstabilitet_score_calc_mem (bt ap : ℕ) :
    regelstabilitet_score_calc bt ap = 2 ∨ regelstabilitet_score_calc bt ap = 3 ∨
      regelstabilitet_score_calc bt ap = 4 ∨ regelstabilitet_score_calc bt ap = 5 := by
  simp only [regelstabilitet_score_calc]
  split_ifs <;> norm_num

/-- C1: for every valid input to `beregn_kvantitative_scores` (non-negative
integer processing minutes and monthly count, arbitrary strings for the
free-text and enum fields), each of the six returned sub-scores —
time-savings, volume, quality-improvement, technical-complexity,
data-complexity and rule-stability — is an integer in the closed
interval `[1, 5]`. -/
theorem C1_sub_scores_in_range (behandlingstid antall_prosesser : ℕ) (feilrate : ℚ)
    (personer_involvert kostnad_per_time : ℕ)
    (filformater datakilder api_tilgang : List Char)
    (brukeropplaering prosessendring motstand_forventet : String) :
    (1 ≤ (beregn_kvantitative_scores behandlingstid antall_prosesser feilrate
        personer_involvert kostnad_per_time filformater datakilder api_tilgang
        brukeropplaering prosessendring motstand_forventet).tidsbesparelse_score ∧
      (beregn_kvantitative_scores behandlingstid antall_prosesser feilrate
        personer_involvert kostnad_per_time filformater datakilder api_tilgang
        brukeropplaering prosessendring motstand_forventet).tidsbesparelse_score ≤ 5) ∧
    (1 ≤ (beregn_kvantitative_scores behandlingstid antall_prosesser feilrate
        personer_involvert kostnad_per_time filformater datakilder api_tilgang
        brukeropplaering prosessendring motstand_forventet).volum_score ∧
      (beregn_kvantitative_scores behandlingstid antall_prosesser feilrate
        personer_involvert kostnad_per_time filformater datakilder api_tilgang
        brukeropplaering prosessendring motstand_forventet).volum_score ≤ 5) ∧
    (1 ≤ (beregn_kvantitative_scores behandlingstid antall_prosesser feilrate
        personer_involvert kostnad_per_time filformater datakilder api_tilgang
        brukeropplaering prosessendring motstand_forventet).kvalitet_score ∧
      (beregn_kvantitative_scores behandlingstid antall_prosesser feilrate
        personer_involvert kostnad_per_time filformater datakilder api_tilgang
        brukeropplaering prosessendring motstand_forventet).kvalitet_score ≤ 5) ∧
    (1 ≤ (beregn_kvantitative_scores behandlingstid antall_prosesser feilrate
        personer_involvert kostnad_per_time filformater datakilder api_tilgang
        brukeropplaering prosessendring motstand_forventet).teknisk_score ∧
      (beregn_kvantitative_scores behandlingstid antall_prosesser feilrate
        personer_involvert kostnad_per_time filformater datakilder api_tilgang
        brukeropplaering prosessendring motstand_forventet).teknisk_score ≤ 5) ∧
    (1 ≤ (beregn_kvantitative_scores behandlingstid antall_prosesser feilrate
        personer_involvert kostnad_per_time filformater datakilder api_tilgang
        brukeropplaering prosessendring motstand_forventet).datakompleksitet_score ∧
      (beregn_kvantitative_scores behandlingstid antall_prosesser feilrate
        personer_involvert kostnad_per_time filformater datakilder api_tilgang
        brukeropplaering prosessendring motstand_forventet).datakompleksitet_score ≤ 5) ∧
    (1 ≤ (beregn_kvantitative_scores behandlingstid antall_prosesser feilrate
        personer_involvert kostnad_per_time filformater datakilder api_tilgang
        brukeropplaering prosessendring motstand_forventet).regelstabilitet_score ∧
      (beregn_kvantitative_scores behandlingstid antall_prosesser feilrate
        personer_involvert kostnad_per_time filformater datakilder api_tilgang
        brukeropplaering prosessendring motstand_forventet).regelstabilitet_score ≤ 5) := by
  refine ⟨?_, ?_, ?_, ?_, ?_, ?_⟩
  · simp only [beregn_kvantitative_scores]
    constructor <;> (split_ifs <;> norm_num)
  · simp only [beregn_kvantitative_scores]
    constructor <;> (split_ifs <;> norm_num)
  · simpa only [beregn_kvantitative_scores] using
      beregn_kvalitetsforbedring_score_bounds behandlingstid antall_prosesser
        brukeropplaering prosessendring motstand_forventet
  · simp only [beregn_kvantitative_scores]
    rcases teknisk_score_calc_mem filformater with h | h | h | h <;> rw [h] <;> norm_num
  · simpa only [beregn_kvantitative_scores] using
      beregn_datakompleksitet_score_bounds datakilder filformater api_tilgang
  · simp only [beregn_kvantitative_scores]
    rcases regelstabilitet_score_calc_mem behandlingstid antall_prosesser with h | h | h | h <;>
      rw [h] <;> norm_num

/-- C10: for every input, the technical-complexity and rule-stability
sub-scores of `beregn_kvantitative_scores` never take the value 1: each is
one of 2, 3, 4, 5 (the technical branch bottoms out at 2 for unrecognized
non-empty formats with default 3 for an empty field, and the rule-stability
branch's lowest tier is 2) — strictly tighter than the uniform `[1, 5]`. -/
theorem C10_teknisk_regel_never_one (behandlingstid antall_prosesser : ℕ) (feilrate : ℚ)
    (personer_involvert kostnad_per_time : ℕ)
    (filformater datakilder api_tilgang : List Char)
    (brukeropplaering prosessendring motstand_forventet : String) :
    ((beregn_kvantitative_scores behandlingstid antall_prosesser feilrate
        personer_involvert kostnad_per_time filformater datakilder api_tilgang
        brukeropplaering prosessendring motstand_forventet).teknisk_score = 2 ∨
      (beregn_kvantitative_scores behandlingstid antall_prosesser feilrate
        personer_involvert kostnad_per_time filformater datakilder api_tilgang
        brukeropplaering prosessendring motstand_forventet).teknisk_score = 3 ∨
      (beregn_kvantitative_scores behandlingstid antall_prosesser feilrate
        personer_involvert kostnad_per_time filformater datakilder api_tilgang
        brukeropplaering prosessendring motstand_forventet).teknisk_score = 4 ∨
      (beregn_kvantitative_scores behandlingstid antall_prosesser feilrate
        personer_involvert kostnad_per_time filformater datakilder api_tilgang
        brukeropplaering prosessendring motstand_forventet).teknisk_score = 5) ∧
    (beregn_kvantitative_scores behandlingstid antall_prosesser feilrate
        personer_involvert kostnad_per_time filformater datakilder api_tilgang
        brukeropplaering prosessendring motstand_forventet).teknisk_score ≠ 1 ∧
    ((beregn_kvantitative_scores behandlingstid antall_prosesser feilrate
        personer_involvert kostnad_per_time filformater datakilder api_tilgang
        brukeropplaering prosessendring motstand_forventet).regelstabilitet_score = 2 ∨
      (beregn_kvantitative_scores behandlingstid antall_prosesser feilrate
        personer_involvert kostnad_per_time filformater datakilder api_tilgang
        brukeropplaering prosessendring motstand_forventet).regelstabilitet_score = 3 ∨
      (beregn_kvantitative_scores behandlingstid antall_prosesser feilrate
        personer_involvert kostnad_per_time filformater datakilder api_tilgang
        brukeropplaering prosessendring motstand_forventet).regelstabilitet_score = 4 ∨
      (beregn_kvantitative_scores behandlingstid antall_prosesser feilrate
        personer_involvert kostnad_per_time filformater datakilder api_tilgang
        brukeropplaering prosessendring motstand_forventet).regelstabilitet_score = 5) ∧
    (beregn_kvantitative_scores behandlingstid antall_prosesser feilrate
        personer_involvert kostnad_per_time filformater datakilder api_tilgang
        brukeropplaering prosessendring motstand_forventet).regelstabilitet_score ≠ 1 := by
  have ht := teknisk_score_calc_mem filformater
  have hr := regelstabilitet_score_calc_mem behandlingstid antall_prosesser
  simp only [beregn_kvantitative_scores]
  exact ⟨ht, by omega, hr, by omega⟩

/-- C7: the technical-complexity sub-score is decided by the first matching
case-insensitive substring rule in the fixed order "api" → 5; else
"xml"/"json" → 4; else "pdf"/"word"/"docx" → 3; else "excel"/"xlsx"/"csv"
→ 4; else 2; and an empty file-format field gives the default 3.  Only the
first matching rule applies, so a string containing both "pdf" and "excel"
scores 3. -/
theorem C7_teknisk_keyword_cascade :
    teknisk_score_calc [] = 3 ∧
    (∀ ff : List Char, ff ≠ [] →
      (pyIn (("api").toList) (toLowerL ff) = true → teknisk_score_calc ff = 5) ∧
      (pyIn (("api").toList) (toLowerL ff) = false →
        (pyIn (("xml").toList) (toLowerL ff) = true ∨ pyIn (("json").toList) (toLowerL ff) = true) →
        teknisk_score_calc ff = 4) ∧
      (pyIn (("api").toList) (toLowerL ff) = false →
        pyIn (("xml").toList) (toLowerL ff) = false →
        pyIn (("json").toList) (toLowerL ff) = false →
        (pyIn (("pdf").toList) (toLowerL ff) = true ∨ pyIn (("word").toList) (toLowerL ff) = true ∨
          pyIn (("docx").toList) (toLowerL ff) = true) →
        teknisk_score_calc ff = 3) ∧
      (pyIn (("api").toList) (toLowerL ff) = false →
        pyIn (("xml").toList) (toLowerL ff) = false →
        pyIn (("json").toList) (toLowerL ff) = false →
        pyIn (("pdf").toList) (toLowerL ff) = false →
        pyIn (("word").toList) (toLowerL ff) = false →
        pyIn (("docx").toList) (toLowerL ff) = false →
        (pyIn (("excel").toList) (toLowerL ff) = true ∨ pyIn (("xlsx").toList) (toLowerL ff) = true ∨
          pyIn (("csv").toList) (toLowerL ff) = true) →
        teknisk_score_calc ff = 4) ∧
      (pyIn (("api").toList) (toLowerL ff) = false →
        pyIn (("xml").toList) (toLowerL ff) = false →
        pyIn (("json").toList) (toLowerL ff) = false →
        pyIn (("pdf").toList) (toLowerL ff) = false →
        pyIn (("word").toList) (toLowerL ff) = false →
        pyIn (("docx").toList) (toLowerL ff) = false →
        pyIn (("excel").toList) (toLowerL ff) = false →
        pyIn (("xlsx").toList) (toLowerL ff) = false →
        pyIn (("csv").toList) (toLowerL ff) = false →
        teknisk_score_calc ff = 2)) ∧
    teknisk_score_calc (("pdf, excel").toList) = 3 := by
  refine ⟨by decide, ?_, by decide⟩
  intro ff hff
  refine ⟨?_, ?_, ?_, ?_, ?_⟩
  · intro h1
    simp_all [teknisk_score_calc]
  · intro h1 h2
    rcases h2 with h2 | h2 <;> simp_all [teknisk_score_calc]
  · intro h1 h2 h3 h4
    rcases h4 with h4 | h4 | h4 <;> simp_all [teknisk_score_calc]
  · intro h1 h2 h3 h4 h5 h6 h7
    rcases h7 with h7 | h7 | h7 <;> simp_all [teknisk_score_calc]
  · intro h1 h2 h3 h4 h5 h6 h7 h8 h9
    simp_all [teknisk_score_calc]

/-- Witness for C7: the cascade applied at the concrete field "pdf, excel"
(which contains both keywords) takes the first matching rule and yields 3. -/
theorem C7_teknisk_keyword_cascade_witness :
    teknisk_score_calc (("pdf, excel").toList) = 3 :=
  ((C7_teknisk_keyword_cascade.2.1 (("pdf, excel").toList) (by decide)).2.2.1
    (by decide) (by decide) (by decide) (Or.inl (by decide)))

theorem splitComma_all_ws {s : List Char} (h : ∀ c ∈ s, c.isWhitespace) :
    splitComma s = [s] := by
  induction s with
  | nil => rfl
  | cons c rest ih =>
    have hc : c.isWhitespace := h c (List.mem_cons_self c rest)
    have hcomma : ¬(c = ',') := by
      intro he; subst he; exact absurd hc (by decide)
    simp only [splitComma, if_neg hcomma]
    rw [ih (fun x hx => h x (List.mem_cons_of_mem _ hx))]

theorem all_ws_of_stripL_eq_nil {s : List Char} (h : stripL s = []) :
    ∀ c ∈ s, c.isWhitespace := by
  unfold stripL at h
  rw [List.reverse_eq_nil_iff, List.dropWhile_eq_nil_iff] at h
  have h2 : ∀ c ∈ s.dropWhile Char.isWhitespace, c.isWhitespace := by
    intro c hc
    exact h c (List.mem_reverse.mpr hc)
  intro c hc
  rw [← List.takeWhile_append_dropWhile (p := Char.isWhitespace) (l := s)] at hc
  rcases List.mem_append.mp hc with h1 | h1
  · exact List.mem_takeWhile_imp h1
  · exact h2 c h1

theorem antallSegmenter_eq_zero_of_stripL {s : List Char} (h : stripL s = []) :
    antallSegmenter s = 0 := by
  have hall := all_ws_of_stripL_eq_nil h
  unfold antallSegmenter
  rw [splitComma_all_ws hall]
  simp [h]

theorem antall_guard_collapse (s : List Char) :
    (if s ≠ [] ∧ stripL s ≠ [] then antallSegmenter s else 0) = antallSegmenter s := by
  split_ifs with h
  · rfl
  · rcases not_and_or.mp h with hs | hs
    · rw [not_not] at hs; subst hs
      decide
    · rw [not_not] at hs
      exact (antallSegmenter_eq_zero_of_stripL hs).symm

theorem api_guard_collapse (a : List Char) :
    (a ≠ [] ∧ toLowerL a = ("ja").toList) ↔ toLowerL a = ("ja").toList := by
  constructor
  · exact fun h => h.2
  · intro h
    refine ⟨?_, h⟩
    intro he
    subst he
    exact absurd h (by decide)

/-- C8: for all string inputs and every API-access value,
`beregn_datakompleksitet_score` returns
`round(min(5, 1 + (nSources−1)·1 [when nSources > 1] + (nFormats−1)·0.5
[when nFormats > 1] + 1 [when API-access lower-cases to "ja"]))`, where
`nSources`/`nFormats` count the non-empty trimmed comma-separated segments
(`antallSegmenter`); an empty or whitespace-only list field counts as zero
items (and the function is total, so never errors).  Here `round` is the
source's Python `round`, i.e. nearest integer with ties to even. -/
theorem C8_datakompleksitet_formula (datakilder filformater api_tilgang : List Char) :
    beregn_datakompleksitet_score datakilder filformater api_tilgang =
      pyRound (min 5 (1 +
        ((if antallSegmenter datakilder > 1 then ((antallSegmenter datakilder : ℚ) - 1) * 1 else 0) +
         (if antallSegmenter filformater > 1 then ((antallSegmenter filformater : ℚ) - 1) * 0.5 else 0) +
         (if toLowerL api_tilgang = ("ja").toList then 1.0 else 0)))) ∧
    (stripL datakilder = [] → antallSegmenter datakilder = 0) := by
  constructor
  · simp only [beregn_datakompleksitet_score, antall_guard_collapse, api_guard_collapse]
  · exact fun h => antallSegmenter_eq_zero_of_stripL h

/-- Witness for C8: a whitespace-only source field counts zero items, and the
formula evaluates concretely (two formats and API access give
`round(min(5, 1 + 0.5 + 1)) = round(2.5) = 2`). -/
theorem C8_datakompleksitet_formula_witness :
    beregn_datakompleksitet_score ((" ").toList) (("x, y").toList) (("Ja").toList) = 2 ∧
    antallSegmenter ((" ").toList) = 0 := by
  have h := C8_datakompleksitet_formula ((" ").toList) (("x, y").toList) (("Ja").toList)
  have c1 : antallSegmenter ((" ").toList) = 0 := by decide
  have c2 : antallSegmenter (("x, y").toList) = 2 := by decide
  have c3 : toLowerL (("Ja").toList) = ("ja").toList := by decide
  refine ⟨?_, h.2 (by decide)⟩
  rw [h.1, c1, c2, if_pos c3]
  norm_num [pyRound]

/-- C3: `get_prioritet_kategori` returns the HIGH label iff the score is
≥ 6.6, the MEDIUM label iff it is in [4.0, 6.6), the LOW label iff it is in
[1.0, 4.0), and the NOT-APPLICABLE label iff it is below 1.0; in particular
6.6 → HIGH, 6.59999 → MEDIUM, 4.0 → MEDIUM, 3.9999 → LOW, 1.0 → LOW and
0.9999 → NOT APPLICABLE. -/
theorem C3_prioritet_kategori_characterization :
    (∀ s : ℚ,
      (get_prioritet_kategori s = "🔴 HØY PRIORITET" ↔ 6.6 ≤ s) ∧
      (get_prioritet_kategori s = "🟡 MEDIUM PRIORITET" ↔ 4.0 ≤ s ∧ s < 6.6) ∧
      (get_prioritet_kategori s = "🟢 LAV PRIORITET" ↔ 1.0 ≤ s ∧ s < 4.0) ∧
      (get_prioritet_kategori s = "⚪ IKKE AKTUELL" ↔ s < 1.0)) ∧
    get_prioritet_kategori 6.6 = "🔴 HØY PRIORITET" ∧
    get_prioritet_kategori 6.59999 = "🟡 MEDIUM PRIORITET" ∧
    get_prioritet_kategori 4 = "🟡 MEDIUM PRIORITET" ∧
    get_prioritet_kategori 3.9999 = "🟢 LAV PRIORITET" ∧
    get_prioritet_kategori 1 = "🟢 LAV PRIORITET" ∧
    get_prioritet_kategori 0.9999 = "⚪ IKKE AKTUELL" := by
  refine ⟨?_, ?_, ?_, ?_, ?_, ?_, ?_⟩
  · intro s
    unfold get_prioritet_kategori
    split_ifs with h1 h2 h3
    · exact ⟨⟨fun _ => h1, fun _ => rfl⟩,
        ⟨fun he => absurd he (by decide), fun hc => absurd hc.2 (not_lt.mpr h1)⟩,
        ⟨fun he => absurd he (by decide), fun hc => absurd hc.2 (not_lt.mpr (by linarith))⟩,
        ⟨fun he => absurd he (by decide), fun hc => absurd hc (not_lt.mpr (by linarith))⟩⟩
    · exact ⟨⟨fun he => absurd he (by decide), fun hc => absurd hc h1⟩,
        ⟨fun _ => ⟨h2, lt_of_not_ge h1⟩, fun _ => rfl⟩,
        ⟨fun he => absurd he (by decide), fun hc => absurd hc.2 (not_lt.mpr h2)⟩,
        ⟨fun he => absurd he (by decide), fun hc => absurd hc (not_lt.mpr (by linarith))⟩⟩
    · exact ⟨⟨fun he => absurd he (by decide), fun hc => absurd (by linarith : s ≥ (4.0:ℚ)) h2⟩,
        ⟨fun he => absurd he (by decide), fun hc => absurd hc.1 h2⟩,
        ⟨fun _ => ⟨h3, lt_of_not_ge h2⟩, fun _ => rfl⟩,
        ⟨fun he => absurd he (by decide), fun hc => absurd hc (not_lt.mpr h3)⟩⟩
    · exact ⟨⟨fun he => absurd he (by decide), fun hc => absurd (by linarith : s ≥ (1.0:ℚ)) h3⟩,
        ⟨fun he => absurd he (by decide), fun hc => absurd (by linarith : s ≥ (1.0:ℚ)) h3⟩,
        ⟨fun he => absurd he (by decide), fun hc => absurd hc.1 h3⟩,
        ⟨fun _ => lt_of_not_ge h3, fun _ => rfl⟩⟩
  · norm_num [get_prioritet_kategori]
  · norm_num [get_prioritet_kategori]
  · norm_num [get_prioritet_kategori]
  · norm_num [get_prioritet_kategori]
  · norm_num [get_prioritet_kategori]
  · norm_num [get_prioritet_kategori]

theorem pyRoundTo2_clamp_bounds (y : ℚ) :
    0 ≤ pyRoundTo 2 (min 10 (max 0 y)) ∧ pyRoundTo 2 (min 10 (max 0 y)) ≤ 10 := by
  have hx0 : (0 : ℚ) ≤ min 10 (max 0 y) := le_min (by norm_num) (le_max_left 0 y)
  have hx10 : min 10 (max 0 y) ≤ 10 := min_le_left _ _
  unfold pyRoundTo
  have h1 : (0 : ℤ) ≤ pyRound (min 10 (max 0 y) * (10 : ℚ) ^ (2 : ℕ)) := by
    apply le_pyRound
    push_cast
    nlinarith
  have h2 : pyRound (min 10 (max 0 y) * (10 : ℚ) ^ (2 : ℕ)) ≤ 1000 := by
    apply pyRound_le
    push_cast
    nlinarith
  constructor
  · apply div_nonneg
    · exact_mod_cast h1
    · positivity
  · rw [div_le_iff₀ (by positivity)]
    have c2 : ((pyRound (min 10 (max 0 y) * (10 : ℚ) ^ (2 : ℕ))) : ℚ) ≤ ((1000 : ℤ) : ℚ) :=
      Int.cast_le.mpr h2
    push_cast at c2 ⊢
    linarith

/-- C2: for every input to `beregn_prioritering`, the returned
`justert_score` equals `round(min(10, max(0, total + |bonus_faktorer| +
volum_bonus − |risiko_faktorer|)), 2)`, where `total` is the mean of the
gain, feasibility and strategic pillars and `volum_bonus` accumulates the
three quantitative threshold bonuses; consequently `justert_score` always
lies in `[0, 10]`. -/
theorem C2_justert_score_clamped (data : PrioData) :
    (beregn_prioritering data).justert_score =
      pyRoundTo 2 (min 10 (max 0 (
        ((((data.tidsbesparelse : ℚ) * 0.4 + (data.volum : ℚ) * 0.4 +
            (data.kvalitetsforbedring : ℚ) * 0.2) * 2 +
          ((data.teknisk_kompleksitet : ℚ) * 0.3 + (data.datakompleksitet : ℚ) * 0.4 +
            (data.regelstabilitet : ℚ) * 0.3) * 2 +
          ((data.org_pavirkning : ℚ) * 0.3 + (data.brukerpavirkning : ℚ) * 0.4 +
            (data.regelverksoverholdelse : ℚ) * 0.3) * 2) / 3 +
        (data.bonus_faktorer.length : ℚ) +
        ((if data.antall_prosesser > 500 then 1.0
            else if data.antall_prosesser > 200 then 0.5 else 0) +
         (if data.behandlingstid > 60 then 1.0
            else if data.behandlingstid > 30 then 0.5 else 0) +
         (if data.feilrate > 15 then 1.0
            else if data.feilrate > 5 then 0.5 else 0)) -
        (data.risiko_faktorer.length : ℚ))))) ∧
    0 ≤ (beregn_prioritering data).justert_score ∧
    (beregn_prioritering data).justert_score ≤ 10 := by
  refine ⟨rfl, ?_, ?_⟩
  · exact (pyRoundTo2_clamp_bounds _).1
  · exact (pyRoundTo2_clamp_bounds _).2

theorem pyRound_max_zero (q : ℚ) : pyRound (max 0 q) = max 0 (pyRound q) := by
  rcases le_total q 0 with h | h
  · have h1 : pyRound q ≤ 0 := pyRound_le (by exact_mod_cast h)
    have h2 : pyRound (0 : ℚ) = 0 := by norm_num [pyRound]
    rw [max_eq_left h, h2]
    exact (max_eq_left h1).symm
  · have h1 : (0 : ℤ) ≤ pyRound q := le_pyRound (by exact_mod_cast h)
    rw [max_eq_right h]
    exact (max_eq_right h1).symm

/-- C5: for all non-negative inputs, `beregn_realistisk_kostnadsbesparelse`
returns `max(0, round(annual_hours_saved × hourly_cost × 1.141 − license −
maintenance))` (a non-negative integer), and for hourly cost 600, 1000 hours
saved and zero license/maintenance costs the result is exactly 684600. -/
theorem C5_realistisk_kostnadsbesparelse
    (arslig_tidsbesparing kostnad_per_time lisenskostnad_aarlig vedlikeholdskostnad_aar : ℕ) :
    beregn_realistisk_kostnadsbesparelse arslig_tidsbesparing kostnad_per_time
        lisenskostnad_aarlig vedlikeholdskostnad_aar =
      max 0 (pyRound ((arslig_tidsbesparing : ℚ) * ((kostnad_per_time : ℚ) * 1.141) -
        (lisenskostnad_aarlig : ℚ) - (vedlikeholdskostnad_aar : ℚ))) ∧
    0 ≤ beregn_realistisk_kostnadsbesparelse arslig_tidsbesparing kostnad_per_time
        lisenskostnad_aarlig vedlikeholdskostnad_aar ∧
    beregn_realistisk_kostnadsbesparelse 1000 600 0 0 = 684600 := by
  refine ⟨?_, ?_, ?_⟩
  · simp only [beregn_realistisk_kostnadsbesparelse]
    exact pyRound_max_zero _
  · simp only [beregn_realistisk_kostnadsbesparelse]
    exact le_pyRound (by exact_mod_cast le_max_left 0 _)
  · norm_num [beregn_realistisk_kostnadsbesparelse, pyRound]

/-- C6: `beregn_roi_metrics` is total (never raises an arithmetic error):
whenever the total lifetime cost (implementation cost plus annual maintenance
times lifetime years) is 0, the returned ROI percentage is 0; and whenever
the monthly net savings (annual savings/12 minus annual maintenance/12) is
not strictly positive, the returned `payback_months` is exactly the sentinel
999 — never negative, never infinite. -/
theorem C6_roi_metrics_guards
    (kostnadsbesparelse implementeringskostnad vedlikeholdskostnad_aar : ℤ)
    (estimert_implementeringstid : ℤ) (forventet_levetid_aar : ℕ) :
    ((implementeringskostnad : ℚ) + (vedlikeholdskostnad_aar : ℚ) * (forventet_levetid_aar : ℚ) = 0 →
      (beregn_roi_metrics kostnadsbesparelse implementeringskostnad vedlikeholdskostnad_aar
        estimert_implementeringstid forventet_levetid_aar).roi_percentage = 0) ∧
    ((kostnadsbesparelse : ℚ) / 12 - (vedlikeholdskostnad_aar : ℚ) / 12 ≤ 0 →
      (beregn_roi_metrics kostnadsbesparelse implementeringskostnad vedlikeholdskostnad_aar
        estimert_implementeringstid forventet_levetid_aar).payback_months = 999) := by
  constructor
  · intro h
    simp only [beregn_roi_metrics]
    rw [if_neg (by rw [h]; exact lt_irrefl 0)]
    norm_num [pyRoundTo, pyRound]
  · intro h
    simp only [beregn_roi_metrics]
    rw [if_neg (not_lt.mpr h)]
    norm_num [pyRoundTo, pyRound]

/-- Witness for C6: with zero implementation cost, zero maintenance and zero
savings over a 3-year lifetime, total cost is 0 and monthly net savings is 0,
so ROI is 0 and the payback sentinel 999 is returned. -/
theorem C6_roi_metrics_guards_witness :
    (beregn_roi_metrics 0 0 0 0 3).roi_percentage = 0 ∧
    (beregn_roi_metrics 0 0 0 0 3).payback_months = 999 := by
  have h := C6_roi_metrics_guards 0 0 0 0 3
  exact ⟨h.1 (by norm_num), h.2 (by norm_num)⟩

/-- Counterexample for C4: the claim says every half-integer is coerced away
from zero (0.5 → 1, 2.5 → 3), but Python's `round` rounds ties to even, so
`to_int` maps 0.5 to 0 (not 1) and 2.5 to 2 (not 3). -/
theorem C4_to_int_half_away_counterexample :
    to_int (some (1/2 : ℚ)) = 0 ∧ to_int (some (1/2 : ℚ)) ≠ 1 ∧
    to_int (some (5/2 : ℚ)) = 2 ∧ to_int (some (5/2 : ℚ)) ≠ 3 := by
  have h1 : to_int (some (1/2 : ℚ)) = 0 := by norm_num [to_int, pyRound]
  have h2 : to_int (some (5/2 : ℚ)) = 2 := by norm_num [to_int, pyRound]
  exact ⟨h1, by rw [h1]; norm_num, h2, by rw [h2]; norm_num⟩

/-- C4 (amended): the persistence coercion `to_int` (shared verbatim by the
`integer_fields` loop of `lagre_data_to_supabase`) maps every parseable
numeric-like value to the nearest integer with ties going to the EVEN
integer (Python banker's rounding) — so 0.5 → 0 and 2.5 → 2 — and maps every
unparseable value to 0 without raising. -/
theorem C4_to_int_banker_rounding (x : Option ℚ) :
    (∀ q : ℚ, x = some q →
      |(to_int x : ℚ) - q| ≤ 1/2 ∧ (|(to_int x : ℚ) - q| = 1/2 → Even (to_int x))) ∧
    (x = none → to_int x = 0) ∧
    to_int (some (1/2 : ℚ)) = 0 ∧ to_int (some (5/2 : ℚ)) = 2 := by
  refine ⟨?_, ?_, ?_, ?_⟩
  · intro q hq
    subst hq
    exact ⟨pyRound_sub_le_half q, fun h => pyRound_tie_even q h⟩
  · intro h
    subst h
    rfl
  · norm_num [to_int, pyRound]
  · norm_num [to_int, pyRound]

/-- Witness for C4 (amended): at the concrete parseable value 1.5, the
coercion lands within a half of the input, the tie goes to the even integer
2, and the unparseable case gives 0. -/
theorem C4_to_int_banker_rounding_witness :
    |(to_int (some (3/2 : ℚ)) : ℚ) - 3/2| ≤ 1/2 ∧ Even (to_int (some (3/2 : ℚ))) ∧
    to_int none = 0 := by
  have h := (C4_to_int_banker_rounding (some (3/2 : ℚ))).1 (3/2) rfl
  have hn := (C4_to_int_banker_rounding none).2.1 rfl
  exact ⟨h.1, h.2 (by norm_num [to_int, pyRound]), hn⟩

theorem manglendeFelter_eq_nil_iff (i : LagreFelter) :
    manglendeFelter i = [] ↔
      (i.prosessnavn ≠ "" ∧ i.prosesseier ≠ "" ∧ i.avdeling ≠ "" ∧
       i.prosessbeskrivelse ≠ "" ∧ i.antall_prosesser ≠ 0 ∧ i.behandlingstid ≠ 0) := by
  unfold manglendeFelter
  split_ifs with h1 h2 h3 h4 h5 h6 <;> simp_all

/-- Counterexample for C9: a record with every text field present but a
monthly count of 0 (admitted by the data model as a non-negative integer)
does NOT pass validation — Python's falsiness check `if not antall_prosesser`
reports the field as missing and the function returns without persisting. -/
theorem C9_zero_count_counterexample :
    lagre_prosess_validering
        ⟨"Fakturabehandling", "Kari Nordmann", "Økonomi", "Behandler fakturaer", 0, 30⟩ =
      Except.error ("Følgende felt mangler: Antall per måned") ∧
    lagre_prosess_validering
        ⟨"Fakturabehandling", "Kari Nordmann", "Økonomi", "Behandler fakturaer", 0, 30⟩ ≠
      Except.ok () := by
  have h1 : lagre_prosess_validering
      ⟨"Fakturabehandling", "Kari Nordmann", "Økonomi", "Behandler fakturaer", 0, 30⟩ =
      Except.error ("Følgende felt mangler: Antall per måned") := by rfl
  exact ⟨h1, fun hok => Except.noConfusion (h1.symm.trans hok)⟩

/-- C9 (amended): `lagre_prosess` validates the six required fields before
invoking persistence and, when validation fails, reports all failing fields
in one consolidated message and returns without persisting; a record proceeds
to persistence if and only if the four text fields are non-empty AND the
monthly count and processing minutes are both nonzero — a value of 0 in
either count is reported as missing (Python truthiness), not accepted. -/
theorem C9_validering_amended (i : LagreFelter) :
    (lagre_prosess_validering i = Except.ok () ↔
      (i.prosessnavn ≠ "" ∧ i.prosesseier ≠ "" ∧ i.avdeling ≠ "" ∧
       i.prosessbeskrivelse ≠ "" ∧ i.antall_prosesser ≠ 0 ∧ i.behandlingstid ≠ 0)) ∧
    (manglendeFelter i ≠ [] →
      lagre_prosess_validering i =
        Except.error (("Følgende felt mangler: ") ++
          String.intercalate (", ") (manglendeFelter i))) := by
  constructor
  · constructor
    · intro hok
      unfold lagre_prosess_validering at hok
      split_ifs at hok with h
      rw [not_not] at h
      exact (manglendeFelter_eq_nil_iff i).mp h
    · intro hc
      unfold lagre_prosess_validering
      rw [if_neg (not_not_intro ((manglendeFelter_eq_nil_iff i).mpr hc))]
  · intro h
    unfold lagre_prosess_validering
    rw [if_pos h]

/-- Witness for C9 (amended): a fully filled record proceeds to persistence,
and a record with an empty name gets the consolidated error message. -/
theorem C9_validering_amended_witness :
    lagre_prosess_validering ⟨"Fakturabehandling", "Kari", "Økonomi", "Skanner", 12, 30⟩ =
      Except.ok () ∧
    lagre_prosess_validering ⟨"", "Kari", "Økonomi", "Skanner", 12, 30⟩ =
      Except.error ("Følgende felt mangler: Prosessnavn") := by
  constructor
  · exact (C9_validering_amended ⟨"Fakturabehandling", "Kari", "Økonomi", "Skanner", 12, 30⟩).1.mpr
      (by refine ⟨?_, ?_, ?_, ?_, ?_, ?_⟩ <;> decide)
  · have h := (C9_validering_amended ⟨"", "Kari", "Økonomi", "Skanner", 12, 30⟩).2 (by decide)
    exact h.trans (congrArg Except.error (by decide))
